import Mathlib

/-!
Shallow embedding of `apps/FullAutomationLight/FullAutomationLight.py`
(class `FullAutomationLight`), the decision engine of the
FullAutomationLight Home Assistant automation, together with theorems
checking the natural-language specification against it.

Conventions of the embedding:
* Home Assistant entity states are dynamically typed Python values,
  modelled by `PyVal` (strings, integers, booleans, `None`).
* Reading entity state (`self.get_state`) is an opaque host primitive,
  modelled by an environment function `Env.getState`.
* Python code that can raise an exception is modelled in
  `Except String`; the error string names the Python exception class.
* Machine integers are `Int`; Python `float` arithmetic is idealised as
  exact rational arithmetic over `ℚ`, with Python `int()` truncation
  toward zero modelled by `ratTrunc`.
-/

namespace FAL

/-- Dynamically typed Python value as returned by `get_state` or stored in
the configuration. -/
inductive PyVal where
  | str (s : String)
  | int (n : Int)
  | bool (b : Bool)
  | none
deriving DecidableEq, Repr

/-- Value of a list of decimal digit characters. -/
def digitsToNat (l : List Char) : Nat :=
  l.foldl (fun a c => a * 10 + (c.toNat - 48)) 0

/-- Model of CPython `float(s)` for a string argument, restricted to plain
decimal literals: an optional sign followed by digits with an optional
fractional part (no exponents, underscores, infinities, NaN or surrounding
whitespace).  Returns `Option.none` when CPython would raise `ValueError`. -/
def strToRat (s : String) : Option ℚ :=
  let cs := s.toList
  let sgn : ℚ × List Char :=
    match cs with
    | '-' :: t => (-1, t)
    | '+' :: t => (1, t)
    | t => (1, t)
  let ip := sgn.2.takeWhile Char.isDigit
  let rest := sgn.2.drop ip.length
  match rest with
  | [] => if ip.isEmpty then Option.none else some (sgn.1 * (digitsToNat ip : ℚ))
  | '.' :: fp =>
      if fp.all Char.isDigit && !(ip.isEmpty && fp.isEmpty) then
        some (sgn.1 * ((digitsToNat ip : ℚ) + (digitsToNat fp : ℚ) / (10 : ℚ) ^ fp.length))
      else Option.none
  | _ => Option.none

/-- Model of CPython `float(val)`: numbers convert to their exact value,
booleans to 0 / 1, strings are parsed, `None` raises (`Option.none`). -/
def pyFloat : PyVal → Option ℚ
  | .int n => some (n : ℚ)
  | .bool b => some (if b then 1 else 0)
  | .str s => strToRat s
  | .none => Option.none

/-- Python `int()` applied to an exact value: truncation toward zero.
For `q = num / den` with `den > 0` this is the t-division of the numerator
by the denominator. -/
def ratTrunc (q : ℚ) : Int :=
  q.num.tdiv q.den

/-- Embeds method `int` (source lines 490-505): the sentinel strings map
to 0, otherwise `int(float(val))` is attempted and — per the bare
`except: return val` — the ORIGINAL value is returned when the conversion
raises (the docstring of the method claims 0 is returned instead). -/
def int (val : PyVal) : PyVal :=
  if val = .str "unknown" ∨ val = .str "unavailable" then .int 0
  else
    match pyFloat val with
    | some q => .int (ratTrunc q)
    | Option.none => val

/-- Python `x <= m` for a dynamically typed left operand and an integer
right operand: numbers (and booleans, which are numeric in Python)
compare; any other left operand raises `TypeError`. -/
def pyLE : PyVal → Int → Except String Bool
  | .int n, m => .ok (decide (n ≤ m))
  | .bool b, m => .ok (decide ((if b then (1 : Int) else 0) ≤ m))
  | _, _ => .error "TypeError"

/-- Embeds method `scale` (source lines 476-488):
`self.int((min(max(val, src[0]), src[1]) - src[0]) / (src[1]-src[0]) * (dst[1]-dst[0]) + dst[0])`.
The argument of `self.int` is a Python float, never a sentinel string, so
the wrapper reduces to `int(float(_))`, i.e. truncation toward zero. -/
def scale (val : ℚ) (src dst : ℚ × ℚ) : Int :=
  ratTrunc ((min (max val src.1) src.2 - src.1) / (src.2 - src.1) * (dst.2 - dst.1) + dst.1)

/-- Written from the specification wording for `scale`: the integer
truncation of the linear map onto `[dstMin, dstMax]` of the value clamped
to `[srcMin, srcMax]`. -/
def spec_scale (val : ℚ) (src dst : ℚ × ℚ) : Int :=
  ratTrunc (dst.1 + (dst.2 - dst.1) * ((min (max val src.1) src.2 - src.1) / (src.2 - src.1)))

/-- Trigger kinds that flow through `set_is_light_on` / `set_light`
(duck-typed strings in the source; the closed set that actually occurs). -/
inductive Trigger where
  | init
  | occupancy
  | low_light
  | scene
  | natural_lighting
deriving DecidableEq, Repr

/-- A scene binding of a room as consulted during evaluation, with all its
dictionary keys present (`scene_force_light_on` models
`trigger-key present AND truthy`, the combined test of source line 310). -/
structure Scene where
  scene_entity : String
  scene_trigger_entity : String
  scene_trigger_value : PyVal
  scene_force_light_on : Bool
deriving DecidableEq, Repr

/-- A natural-lighting binding of a room (defaults merged at startup):
mode name, signed brightness boost percentage, optional dedicated light
target (the `lights_entity` key set_light checks on line 142). -/
structure NLBinding where
  name : String
  boost_brightness_pct : Int
  lights_entity : Option String
deriving DecidableEq, Repr

/-- Per-room configuration and mutable state (the merged dictionary built
by `init_rooms`).  `luminance_limit` and `luminance_hysteresis` are the
configured numbers; `self.int` applied to an integer is the identity, so
they are carried as integers directly.  An absent `scenes` or
`natural_lighting` key behaves exactly like the empty list everywhere the
code consults it, so both are carried as plain lists. -/
structure Room where
  occupancy_entity : Option String
  lights_entity : String
  occupancy_off_delay : Int
  luminance_entity : Option String
  luminance_limit : Int
  luminance_hysteresis : Int
  hight_luminance_off_light : Bool
  occupancy : Bool
  low_light : Bool
  is_light_on : Bool
  scenes : List Scene
  natural_lighting : List NLBinding
deriving DecidableEq, Repr

/-- The opaque host runtime: reading an entity state. -/
structure Env where
  getState : String → PyVal

/-- A named natural-lighting mode: configured bounds plus the two derived
fields recomputed on every sun-elevation change. -/
structure Mode where
  max_brightness : Int
  min_brightness : Int
  max_kelvin : Int
  min_kelvin : Int
  brightness : Int
  kelvin : Int
deriving DecidableEq, Repr

/-- The global natural-lighting configuration (`self.natural_lighting`
when it is not `False`). -/
structure NLConfig where
  modes : List (String × Mode)
  min_elevation_for_brightness : Int
  max_elevation_for_brightness : Int
  min_elevation_for_kelvin : Int
  max_elevation_for_kelvin : Int
  sun_elevation : Int
deriving DecidableEq, Repr

/-- The transition table built by `init_transitions`; `Option.none` models
the Python value `None` ("send no transition parameter"). -/
structure TransTable where
  init : Option Nat
  occupancy : Option Nat
  low_light : Option Nat
  scene : Option Nat
  natural_lighting : Option Nat
  off : Option Nat
deriving DecidableEq, Repr

/-- `self.transitions.get(trigger, 1)`: every trigger kind that occurs is a
key of the table, so the default 1 is never taken. -/
def TransTable.get (tt : TransTable) : Trigger → Option Nat
  | .init => tt.init
  | .occupancy => tt.occupancy
  | .low_light => tt.low_light
  | .scene => tt.scene
  | .natural_lighting => tt.natural_lighting

/-- The default transition table of `init_transitions` (lines 333-340). -/
def default_transitions : TransTable :=
  { init := Option.none, occupancy := Option.none, low_light := some 15,
    scene := some 10, natural_lighting := some 10, off := Option.none }

/-- Python `entity.split('.')[0]`: the prefix before the first dot. -/
def entity_domain (e : String) : String :=
  String.mk (e.toList.takeWhile fun c => c != '.')

/-- The scene-trigger test used identically on lines 125 and 309:
`self.get_state(scene['scene_trigger_entity']) == scene['scene_trigger_value']`. -/
def scene_matches (env : Env) (s : Scene) : Bool :=
  decide (env.getState s.scene_trigger_entity = s.scene_trigger_value)

/-- Lines 306-312: a scene whose trigger currently equals its match value
and whose `scene_force_light_on` key is present and truthy (the `break`
only stops iteration early; the resulting boolean is `any`). -/
def force_light_on (env : Env) (scenes : List Scene) : Bool :=
  scenes.any fun s => scene_matches env s && s.scene_force_light_on

/-- Lines 287-289: refresh the occupancy flag from the occupancy sensor
when one is configured. -/
def refresh_occupancy (env : Env) (room : Room) : Room :=
  match room.occupancy_entity with
  | some e =>
      { room with occupancy :=
          if env.getState e ∈
              [PyVal.str "on", PyVal.str "home", PyVal.bool true,
               PyVal.str "true", PyVal.str "True"] then true else false }
  | Option.none => room

/-- The value the low-light flag takes for a converted integer reading:
true iff the reading is at most the hysteresis-adjusted effective
threshold (limit plus hysteresis while currently low-light, limit minus
hysteresis otherwise). -/
def low_light_flag (room : Room) (reading : Int) : Bool :=
  decide (reading ≤
    (if room.low_light then room.luminance_limit + room.luminance_hysteresis
     else room.luminance_limit - room.luminance_hysteresis))

/-- Lines 291-301: refresh the low-light flag from the luminance sensor
when one is configured.  The effective threshold adds the hysteresis when
the flag is currently true and subtracts it otherwise; the converted
reading is compared with Python `<=`, which raises `TypeError` when the
conversion returned a non-numeric value unchanged. -/
def refresh_low_light (env : Env) (room : Room) : Except String Room :=
  match room.luminance_entity with
  | some e =>
      (pyLE (int (env.getState e))
        (if room.low_light then room.luminance_limit + room.luminance_hysteresis
         else room.luminance_limit - room.luminance_hysteresis)).map
        fun b => { room with low_light := b }
  | Option.none => .ok room

/-- Lines 314-317: the is-light-on update on the refreshed room.  A
matching force-on scene wins; otherwise the flag is recomputed as
occupancy AND low-light exactly when the room is not "on with abundant
light", or it is configured to turn off on high luminance, or the trigger
is occupancy-kind; in every remaining case it is left unchanged. -/
def update_is_light_on (env : Env) (room1 : Room) (trigger : Trigger) : Room :=
  if force_light_on env room1.scenes then { room1 with is_light_on := true }
  else if ¬(room1.is_light_on = true ∧ room1.low_light = false) ∨
          room1.hight_luminance_off_light = true ∨ trigger = .occupancy then
    { room1 with is_light_on := room1.occupancy && room1.low_light }
  else room1

/-- Lines 319-324: the dispatch decision, given the refreshed room
(`room1`, whose is-light-on flag is the captured `old_is_light_on`) and
the trigger.  Returns the trigger kind handed to `set_light`, or
`Option.none` when no device action is dispatched. -/
def dispatch_decision (env : Env) (room1 : Room) (trigger : Trigger) : Option Trigger :=
  let room2 := update_is_light_on env room1 trigger
  if trigger = .init ∨ trigger = .scene ∨ trigger = .natural_lighting ∨
     room1.is_light_on ≠ room2.is_light_on then
    some (if force_light_on env room1.scenes = true ∧ trigger = .scene ∧
             room1.is_light_on = false then .occupancy else trigger)
  else Option.none

/-- Embeds method `set_is_light_on` (lines 279-324): refresh occupancy,
refresh the low-light flag, update the is-light-on flag, decide the
dispatch. -/
def set_is_light_on (env : Env) (room : Room) (trigger : Trigger) :
    Except String (Room × Option Trigger) :=
  (refresh_low_light env (refresh_occupancy env room)).map fun room1 =>
    (update_is_light_on env room1 trigger, dispatch_decision env room1 trigger)

/-- A device action issued through the host (`call_service`); a transition
of `Option.none` means the parameter is omitted. -/
inductive Action where
  | turn_on_scene (entity : String) (transition : Option Nat)
  | turn_on_natural (entity : String) (brightness : Int) (kelvin : Int)
      (transition : Option Nat)
  | turn_on_plain (entity : String) (transition : Option Nat)
  | turn_off (entity : String) (transition : Option Nat)
deriving DecidableEq, Repr

/-- Lines 144-148: apply the boost percentage to the current mode
brightness.  When the percentage is 0 the whole block is skipped and the
brightness is passed through UNCLAMPED. -/
def boost_brightness (b : Int) (pct : Int) : Int :=
  if pct ≠ 0 then
    let b1 := ratTrunc ((b : ℚ) + (b : ℚ) / 100 * (pct : ℚ))
    let b2 := if b1 > 255 then 255 else b1
    if b2 < 1 then 1 else b2
  else b

/-- Written from the specification wording: brightness transformed to
`int(b + b * boost / 100)` and then clamped to `[1, 255]`. -/
def spec_boost_brightness (b pct : Int) : Int :=
  min 255 (max 1 (ratTrunc ((b : ℚ) + (b : ℚ) * (pct : ℚ) / 100)))

/-- `self.natural_lighting['modes'][name]`.  `init_rooms` (lines 219-220)
replaces any unknown binding name by "default" and "default" is always a
key of the table, so the fallback mode here is unreachable. -/
def lookup_mode (nl : NLConfig) (name : String) : Mode :=
  (nl.modes.lookup name).getD
    { max_brightness := 255, min_brightness := 100, max_kelvin := 5500,
      min_kelvin := 2000, brightness := 0, kelvin := 0 }

/-- Embeds method `set_light` (lines 107-171), the action dispatcher, as
the list of device actions it issues.  Priority on a lit room: first
matching scene, else natural-lighting bindings (one action per binding),
else plain turn-on; an unlit room gets turn-off with the off transition. -/
def set_light (env : Env) (tt : TransTable) (nl : Option NLConfig)
    (room : Room) (trigger : Trigger) : List Action :=
  let transition := tt.get trigger
  if room.is_light_on then
    match room.scenes.find? (scene_matches env) with
    | some s =>
        if entity_domain s.scene_entity = "script" ∨ transition = Option.none then
          [.turn_on_scene s.scene_entity Option.none]
        else
          [.turn_on_scene s.scene_entity transition]
    | Option.none =>
        match nl with
        | some cfg =>
            if room.natural_lighting.isEmpty then
              [.turn_on_plain room.lights_entity transition]
            else
              room.natural_lighting.map fun b =>
                let m := lookup_mode cfg b.name
                let brightness := boost_brightness m.brightness b.boost_brightness_pct
                Action.turn_on_natural (b.lights_entity.getD room.lights_entity)
                  brightness m.kelvin transition
        | Option.none => [.turn_on_plain room.lights_entity transition]
  else
    [.turn_off room.lights_entity tt.off]

/-- Embeds method `set_natural_lighting` (lines 443-474): recompute every
mode's derived brightness and kelvin from the current sun elevation. -/
def set_natural_lighting (nl : NLConfig) : NLConfig :=
  { nl with modes := nl.modes.map fun p =>
      (p.1,
       { p.2 with
          brightness := scale (nl.sun_elevation : ℚ)
            ((nl.min_elevation_for_brightness : ℚ), (nl.max_elevation_for_brightness : ℚ))
            ((p.2.min_brightness : ℚ), (p.2.max_brightness : ℚ)),
          kelvin := scale (nl.sun_elevation : ℚ)
            ((nl.min_elevation_for_kelvin : ℚ), (nl.max_elevation_for_kelvin : ℚ))
            ((p.2.min_kelvin : ℚ), (p.2.max_kelvin : ℚ)) }) }

/-- Embeds `callback_sun_elevation` (lines 425-441) after the elevation
reading has been converted to an integer: store the new elevation,
recompute every mode, then re-drive through `set_light` with trigger kind
`natural_lighting` every room that has natural-lighting bindings
(a non-empty list) and whose lights are currently on.  The handler never
writes to any room, so the room table is returned unchanged. -/
def callback_sun_elevation (env : Env) (tt : TransTable) (nl : NLConfig)
    (rooms : List (String × Room)) (new : Int) :
    NLConfig × List (String × Room) × List (String × List Action) :=
  let nl2 := set_natural_lighting { nl with sun_elevation := new }
  (nl2, rooms,
    rooms.filterMap fun p =>
      if ¬p.2.natural_lighting.isEmpty ∧ p.2.is_light_on = true then
        some (p.1, set_light env tt (some nl2) p.2 .natural_lighting)
      else Option.none)

/-- Embeds the start-up pass of `initialize` (lines 92-95):
`for room_name in self.rooms: self.set_is_light_on(room_name, "init")`.
The loop body is NOT wrapped in try-except, so the first room whose
evaluation raises aborts the whole pass (monadic `mapM` over `Except`). -/
def init_pass (env : Env) (rooms : List (String × Room)) :
    Except String (List (String × Room × Option Trigger)) :=
  rooms.mapM fun p => (set_is_light_on env p.2 .init).map fun rd => (p.1, rd)

/-- A scene binding exactly as it appears in the configuration, before any
validity check: each of the three scene keys may be absent. -/
structure SceneConfig where
  scene_entity : Option String
  scene_trigger_entity : Option String
  scene_trigger_value : Option PyVal
  scene_force_light_on : Bool
deriving DecidableEq, Repr

/-- The startup validity test of lines 236-242: the scene entity and
trigger entity keys are present and refer to existing entities, the
trigger value key is present, and the scene entity's domain is `script`
or `scene`. -/
def valid_scene (exists_entity : String → Bool) (s : SceneConfig) : Bool :=
  match s.scene_entity, s.scene_trigger_entity, s.scene_trigger_value with
  | some se, some te, some _ =>
      exists_entity se && exists_entity te &&
        (decide (entity_domain se = "script") || decide (entity_domain se = "scene"))
  | _, _, _ => false

/-- A state-change subscription registered with `listen_state`: scenes get
one subscription on the trigger reaching the match value and one on it
leaving it (lines 243-246). -/
inductive Subscription where
  | on_new (entity : String) (value : PyVal)
  | on_old (entity : String) (value : PyVal)
deriving DecidableEq, Repr

/-- The two subscriptions registered for one (valid) scene. -/
def scene_subs (s : SceneConfig) : List Subscription :=
  match s.scene_trigger_entity, s.scene_trigger_value with
  | some te, some v => [.on_new te v, .on_old te v]
  | _, _ => []

/-- Embeds the scene block of `init_rooms` (lines 233-246): the configured
scene list is stored verbatim (`rooms[name]['scenes'] = ...`), and the
validity check only decides which scenes get event subscriptions —
nothing is ever removed from the stored list. -/
def init_scenes (exists_entity : String → Bool) (cfg : List SceneConfig) :
    List SceneConfig × List Subscription :=
  (cfg, cfg.flatMap fun s => if valid_scene exists_entity s then scene_subs s else [])

/-- The embedding of an evaluation-time scene back into its configured
form (all three keys present). -/
def SceneConfig.ofScene (s : Scene) : SceneConfig :=
  { scene_entity := some s.scene_entity,
    scene_trigger_entity := some s.scene_trigger_entity,
    scene_trigger_value := some s.scene_trigger_value,
    scene_force_light_on := s.scene_force_light_on }

/-- An environment in which no entity matches anything interesting. -/
def env_quiet : Env := ⟨fun _ => .str "idle"⟩

/-- A natural-lighting configuration holding one mode whose configured
maximal brightness is 400 and whose derived brightness is the 400 that
`scale` produces for it at sun elevation 20 (first conjunct of the
counterexample theorem below). -/
def nl400 : NLConfig :=
  { modes := [("high",
      { max_brightness := 400, min_brightness := 100, max_kelvin := 5500,
        min_kelvin := 2000, brightness := 400, kelvin := 5500 })],
    min_elevation_for_brightness := -20, max_elevation_for_brightness := 20,
    min_elevation_for_kelvin := 0, max_elevation_for_kelvin := 20,
    sun_elevation := 20 }

/-- A lit room bound to the mode of `nl400` with boost percentage 0. -/
def room400 : Room :=
  { occupancy_entity := Option.none, lights_entity := "light.x",
    occupancy_off_delay := 0, luminance_entity := Option.none,
    luminance_limit := 10, luminance_hysteresis := 0,
    hight_luminance_off_light := false, occupancy := true, low_light := true,
    is_light_on := true, scenes := [],
    natural_lighting := [{ name := "high", boost_brightness_pct := 0,
                           lights_entity := Option.none }] }

/-- A minimal unlit room with no sensors, scenes or bindings, occupied
and low-light by default. -/
def room_plain : Room :=
  { occupancy_entity := Option.none, lights_entity := "light.p",
    occupancy_off_delay := 0, luminance_entity := Option.none,
    luminance_limit := 10, luminance_hysteresis := 0,
    hight_luminance_off_light := false, occupancy := true, low_light := true,
    is_light_on := false, scenes := [], natural_lighting := [] }

/-- A room with a luminance sensor, limit 10 and hysteresis 2. -/
def room_lum : Room :=
  { room_plain with luminance_entity := some "sensor.lum", luminance_hysteresis := 2 }

/-- An environment whose luminance sensor reads the integer 5. -/
def env_lum : Env := ⟨fun s => if s = "sensor.lum" then .int 5 else .str "idle"⟩

/-- A scene binding whose scene entity lives in the domain `light`, which
fails the startup validity check, yet matches its trigger and carries the
force-light-on flag. -/
def scene_bad : Scene :=
  { scene_entity := "light.bad", scene_trigger_entity := "input_select.mode",
    scene_trigger_value := .str "party", scene_force_light_on := true }

/-- An unoccupied, bright room holding only the invalid scene binding. -/
def room_bad : Room :=
  { room_plain with occupancy := false, low_light := false, scenes := [scene_bad] }

/-- An environment in which the scene trigger of `scene_bad` matches. -/
def env_party : Env := ⟨fun s => if s = "input_select.mode" then .str "party" else .str "idle"⟩

/-- An environment whose room-a luminance sensor returns the non-numeric
string "abc" (so the comparison in the low-light refresh raises a
TypeError), while everything else reads "idle". -/
def env_err : Env := ⟨fun s => if s = "sensor.a" then .str "abc" else .str "idle"⟩

/-- The first room of the failing start-up pass: it carries the bad
luminance sensor. -/
def room_a : Room :=
  { room_plain with lights_entity := "light.a", luminance_entity := some "sensor.a" }

/-- The second room of the failing start-up pass: a plain healthy room. -/
def room_b : Room := { room_plain with lights_entity := "light.b" }

/-- Every entity exists, for exercising the validity check in isolation. -/
def exists_all : String → Bool := fun _ => true

/- ------------------------------------------------------------------ -/
/- Arithmetic bridge lemmas for the truncation `ratTrunc`.             -/
/- ------------------------------------------------------------------ -/

theorem ratTrunc_nonneg {q : ℚ} (h : 0 ≤ q) : ratTrunc q = ⌊q⌋ := by
  unfold ratTrunc
  rw [Int.tdiv_eq_ediv (Rat.num_nonneg.mpr h) (Int.natCast_nonneg q.den), Rat.floor_def]

theorem ratTrunc_neg {q : ℚ} (h : q < 0) : ratTrunc q = ⌈q⌉ := by
  have h3 : ratTrunc (-q) = ⌊-q⌋ := ratTrunc_nonneg (by linarith)
  unfold ratTrunc at h3 ⊢
  rw [Rat.num_neg_eq_neg_num, Rat.neg_den, Int.neg_tdiv, Int.floor_neg] at h3
  omega

theorem ratTrunc_intCast (n : ℤ) : ratTrunc (n : ℚ) = n := by
  unfold ratTrunc
  rw [Rat.num_intCast, Rat.den_intCast]
  exact Int.tdiv_one n

theorem ratTrunc_mono {a b : ℚ} (h : a ≤ b) : ratTrunc a ≤ ratTrunc b := by
  rcases lt_or_le a 0 with ha | ha
  · rcases lt_or_le b 0 with hb | hb
    · rw [ratTrunc_neg ha, ratTrunc_neg hb]
      exact Int.ceil_mono h
    · rw [ratTrunc_neg ha, ratTrunc_nonneg hb]
      calc ⌈a⌉ ≤ ⌈(0 : ℚ)⌉ := Int.ceil_mono ha.le
        _ = 0 := by simp
        _ ≤ ⌊b⌋ := Int.floor_nonneg.mpr hb
  · rw [ratTrunc_nonneg ha, ratTrunc_nonneg (ha.trans h)]
    exact Int.floor_mono h

/-- `self.int` is the identity on integers, which justifies carrying the
configured luminance limit and hysteresis as plain integers in `Room`. -/
theorem int_intCast (n : Int) : int (.int n) = .int n := by
  unfold int
  simp [pyFloat, ratTrunc_intCast]

theorem scale_eval (val : ℚ) (src dst : ℚ × ℚ) (n : ℤ)
    (h : (min (max val src.1) src.2 - src.1) / (src.2 - src.1) * (dst.2 - dst.1) + dst.1
          = (n : ℚ)) :
    scale val src dst = n := by
  unfold scale
  rw [h, ratTrunc_intCast]

/- ------------------------------------------------------------------ -/
/- Structural lemmas about the evaluation pipeline.                    -/
/- ------------------------------------------------------------------ -/

theorem except_map_ok {α β : Type} {f : α → β} {x : Except String α} {b : β}
    (h : Except.map f x = .ok b) : ∃ a, x = .ok a ∧ f a = b := by
  cases x with
  | error err => simp [Except.map] at h
  | ok a =>
      simp only [Except.map, Except.ok.injEq] at h
      exact ⟨a, rfl, h⟩

theorem refresh_occupancy_pres (env : Env) (room : Room) :
    (refresh_occupancy env room).occupancy_entity = room.occupancy_entity ∧
    (refresh_occupancy env room).lights_entity = room.lights_entity ∧
    (refresh_occupancy env room).luminance_entity = room.luminance_entity ∧
    (refresh_occupancy env room).luminance_limit = room.luminance_limit ∧
    (refresh_occupancy env room).luminance_hysteresis = room.luminance_hysteresis ∧
    (refresh_occupancy env room).hight_luminance_off_light = room.hight_luminance_off_light ∧
    (refresh_occupancy env room).low_light = room.low_light ∧
    (refresh_occupancy env room).is_light_on = room.is_light_on ∧
    (refresh_occupancy env room).scenes = room.scenes ∧
    (refresh_occupancy env room).natural_lighting = room.natural_lighting := by
  unfold refresh_occupancy
  rcases h : room.occupancy_entity with _ | e <;> simp [h]

theorem refresh_low_light_pres {env : Env} {room room1 : Room}
    (h : refresh_low_light env room = .ok room1) :
    room1.occupancy_entity = room.occupancy_entity ∧
    room1.lights_entity = room.lights_entity ∧
    room1.luminance_entity = room.luminance_entity ∧
    room1.luminance_limit = room.luminance_limit ∧
    room1.luminance_hysteresis = room.luminance_hysteresis ∧
    room1.hight_luminance_off_light = room.hight_luminance_off_light ∧
    room1.occupancy = room.occupancy ∧
    room1.is_light_on = room.is_light_on ∧
    room1.scenes = room.scenes ∧
    room1.natural_lighting = room.natural_lighting := by
  unfold refresh_low_light at h
  rcases hel : room.luminance_entity with _ | e
  · rw [hel] at h
    dsimp only at h
    injection h with h1
    subst h1
    simp [hel]
  · rw [hel] at h
    dsimp only at h
    obtain ⟨b, _, hfb⟩ := except_map_ok h
    subst hfb
    simp [hel]

theorem refreshed_fields {env : Env} {room room1 : Room}
    (h : refresh_low_light env (refresh_occupancy env room) = .ok room1) :
    room1.scenes = room.scenes ∧ room1.is_light_on = room.is_light_on ∧
    room1.hight_luminance_off_light = room.hight_luminance_off_light ∧
    room1.occupancy_entity = room.occupancy_entity ∧
    room1.luminance_entity = room.luminance_entity ∧
    room1.luminance_limit = room.luminance_limit ∧
    room1.luminance_hysteresis = room.luminance_hysteresis := by
  obtain ⟨o1, o2, o3, o4, o5, o6, o7, o8, o9, o10⟩ := refresh_occupancy_pres env room
  obtain ⟨l1, l2, l3, l4, l5, l6, l7, l8, l9, l10⟩ := refresh_low_light_pres h
  exact ⟨l9.trans o9, l8.trans o8, l6.trans o6, l1.trans o1, l3.trans o3,
         l4.trans o4, l5.trans o5⟩

theorem refresh_low_light_some {env : Env} {room : Room} {e : String} {reading : Int}
    (he : room.luminance_entity = some e)
    (hr : int (env.getState e) = .int reading) :
    refresh_low_light env room = .ok { room with low_light := low_light_flag room reading } := by
  unfold refresh_low_light
  rw [he]
  dsimp only
  rw [hr]
  rfl

theorem set_is_light_on_eq (env : Env) (room : Room) (trigger : Trigger) (room1 : Room)
    (h1 : refresh_low_light env (refresh_occupancy env room) = .ok room1) :
    set_is_light_on env room trigger
      = .ok (update_is_light_on env room1 trigger, dispatch_decision env room1 trigger) := by
  unfold set_is_light_on
  rw [h1]
  rfl

theorem set_is_light_on_err {env : Env} {room : Room} {trigger : Trigger} {out}
    (h : set_is_light_on env room trigger = .ok out) :
    ∃ room1, refresh_low_light env (refresh_occupancy env room) = .ok room1 := by
  unfold set_is_light_on at h
  rcases hr : refresh_low_light env (refresh_occupancy env room) with err | room1
  · rw [hr] at h
    simp [Except.map] at h
  · exact ⟨room1, rfl⟩

theorem update_is_light_on_low_light (env : Env) (room1 : Room) (trigger : Trigger) :
    (update_is_light_on env room1 trigger).low_light = room1.low_light := by
  unfold update_is_light_on
  split_ifs <;> simp

/- ------------------------------------------------------------------ -/
/- The claims.                                                         -/
/- ------------------------------------------------------------------ -/

/-- C1: for a room with a luminance sensor whose reading converts to the
integer `reading`, the evaluation sets the low-light flag to true iff the
reading is at most the effective threshold: configured limit plus
hysteresis when the flag was previously true, limit minus hysteresis when
it was previously false.  In particular with limit 10 and hysteresis 2 a
low-light room stays low-light exactly while the reading is at most 12,
and a room that is not low-light stays so while the reading exceeds 10. -/
theorem C1_low_light_hysteresis (env : Env) (room : Room) (trigger : Trigger)
    (e : String) (reading : Int)
    (he : room.luminance_entity = some e)
    (hr : int (env.getState e) = .int reading) :
    (∃ room2 d, set_is_light_on env room trigger = .ok (room2, d) ∧
        room2.low_light = decide (reading ≤
          (if room.low_light then room.luminance_limit + room.luminance_hysteresis
           else room.luminance_limit - room.luminance_hysteresis)))
  ∧ (room.luminance_limit = 10 → room.luminance_hysteresis = 2 → room.low_light = true →
      ∀ room2 d, set_is_light_on env room trigger = .ok (room2, d) →
        (room2.low_light = true ↔ reading ≤ 12))
  ∧ (room.luminance_limit = 10 → room.luminance_hysteresis = 2 → room.low_light = false →
      10 < reading →
      ∀ room2 d, set_is_light_on env room trigger = .ok (room2, d) →
        room2.low_light = false) := by
  obtain ⟨o1, o2, o3, o4, o5, o6, o7, o8, o9, o10⟩ := refresh_occupancy_pres env room
  have he0 : (refresh_occupancy env room).luminance_entity = some e := by
    rw [o3, he]
  have hll : refresh_low_light env (refresh_occupancy env room)
      = .ok { refresh_occupancy env room with
              low_light := low_light_flag (refresh_occupancy env room) reading } :=
    refresh_low_light_some he0 hr
  have hX : low_light_flag (refresh_occupancy env room) reading = decide (reading ≤
      (if room.low_light then room.luminance_limit + room.luminance_hysteresis
       else room.luminance_limit - room.luminance_hysteresis)) := by
    unfold low_light_flag
    rw [o4, o5, o7]
  have hmain : ∀ room2 d, set_is_light_on env room trigger = .ok (room2, d) →
      room2.low_light = decide (reading ≤
        (if room.low_light then room.luminance_limit + room.luminance_hysteresis
         else room.luminance_limit - room.luminance_hysteresis)) := by
    intro room2 d hset
    have heq := (set_is_light_on_eq env room trigger _ hll).symm.trans hset
    injection heq with hp
    injection hp with h2 _
    rw [← h2, update_is_light_on_low_light]
    simpa using hX
  refine ⟨⟨_, _, set_is_light_on_eq env room trigger _ hll,
            hmain _ _ (set_is_light_on_eq env room trigger _ hll)⟩, ?_, ?_⟩
  · intro h10 h2 htrue room2 d hset
    have hthis := hmain room2 d hset
    rw [h10, h2, htrue] at hthis
    norm_num at hthis
    rw [hthis]
    simp
  · intro h10 h2 hfalse hgt room2 d hset
    have hthis := hmain room2 d hset
    rw [h10, h2, hfalse] at hthis
    norm_num at hthis
    rw [hthis]
    simp
    omega

/-- Witness for C1: a room with luminance limit 10, hysteresis 2 and a
sensor reading of 5. -/
theorem C1_low_light_hysteresis_witness :
    ∃ room2 d, set_is_light_on env_lum room_lum Trigger.low_light = .ok (room2, d) ∧
      room2.low_light = decide ((5 : Int) ≤
        (if room_lum.low_light then room_lum.luminance_limit + room_lum.luminance_hysteresis
         else room_lum.luminance_limit - room_lum.luminance_hysteresis)) :=
  (C1_low_light_hysteresis env_lum room_lum Trigger.low_light "sensor.lum" 5 rfl rfl).1

/-- C3: when no force-on scene is active, the is-light-on flag is
recomputed as occupancy AND low-light exactly when the (refreshed) room is
not in the state "on with abundant light", or it is configured to turn off
on high luminance, or the trigger is occupancy-kind; in every other case
the flag is left unchanged. -/
theorem C3_recompute_rule (env : Env) (room : Room) (trigger : Trigger) (room1 : Room)
    (h1 : refresh_low_light env (refresh_occupancy env room) = .ok room1)
    (hf : force_light_on env room.scenes = false) :
    ∃ d, set_is_light_on env room trigger = .ok
      (if ¬(room1.is_light_on = true ∧ room1.low_light = false) ∨
          room1.hight_luminance_off_light = true ∨ trigger = Trigger.occupancy
       then { room1 with is_light_on := room1.occupancy && room1.low_light }
       else room1, d) := by
  have hsc : room1.scenes = room.scenes := (refreshed_fields h1).1
  refine ⟨dispatch_decision env room1 trigger, ?_⟩
  rw [set_is_light_on_eq env room trigger room1 h1]
  unfold update_is_light_on
  rw [hsc, hf]
  simp

/-- Witness for C3: the plain unlit occupied dark room on the init
trigger. -/
theorem C3_recompute_rule_witness :
    ∃ d, set_is_light_on env_quiet room_plain Trigger.init = .ok
      (if ¬(room_plain.is_light_on = true ∧ room_plain.low_light = false) ∨
          room_plain.hight_luminance_off_light = true ∨ Trigger.init = Trigger.occupancy
       then { room_plain with is_light_on := room_plain.occupancy && room_plain.low_light }
       else room_plain, d) :=
  C3_recompute_rule env_quiet room_plain Trigger.init room_plain rfl rfl

/-- C4: an evaluation dispatches a device action iff the trigger kind is
init, scene or natural_lighting, or the is-light-on flag changed; and a
dispatched action uses the occupancy transition timing instead of the
trigger timing exactly when a force-on scene fired via a scene trigger
while the room was previously off. -/
theorem C4_dispatch_rule (env : Env) (room : Room) (trigger : Trigger)
    (room2 : Room) (d : Option Trigger)
    (h : set_is_light_on env room trigger = .ok (room2, d)) :
    (d.isSome = true ↔
      trigger ∈ [Trigger.init, Trigger.scene, Trigger.natural_lighting] ∨
        room.is_light_on ≠ room2.is_light_on)
  ∧ ∀ t, d = some t →
      t = if force_light_on env room.scenes = true ∧ trigger = Trigger.scene ∧
             room.is_light_on = false
          then Trigger.occupancy else trigger := by
  obtain ⟨room1, hr⟩ := set_is_light_on_err h
  have heq := (set_is_light_on_eq env room trigger room1 hr).symm.trans h
  injection heq with hp
  injection hp with h2 hd
  obtain ⟨hsc, hio, _⟩ := refreshed_fields hr
  subst h2
  subst hd
  constructor
  · unfold dispatch_decision
    have hCiff : (trigger = Trigger.init ∨ trigger = Trigger.scene ∨
        trigger = Trigger.natural_lighting ∨
        room1.is_light_on ≠ (update_is_light_on env room1 trigger).is_light_on) ↔
        (trigger ∈ [Trigger.init, Trigger.scene, Trigger.natural_lighting] ∨
          room.is_light_on ≠ (update_is_light_on env room1 trigger).is_light_on) := by
      rw [hio]
      simp [or_assoc]
    by_cases hc : trigger = Trigger.init ∨ trigger = Trigger.scene ∨
        trigger = Trigger.natural_lighting ∨
        room1.is_light_on ≠ (update_is_light_on env room1 trigger).is_light_on
    · rw [if_pos hc]
      simpa using hCiff.mp hc
    · rw [if_neg hc]
      simp only [Option.isSome_none, Bool.false_eq_true, false_iff]
      exact fun hcl => hc (hCiff.mpr hcl)
  · intro t ht
    unfold dispatch_decision at ht
    dsimp only at ht
    by_cases hC : trigger = Trigger.init ∨ trigger = Trigger.scene ∨
        trigger = Trigger.natural_lighting ∨
        room1.is_light_on ≠ (update_is_light_on env room1 trigger).is_light_on
    · rw [if_pos hC] at ht
      injection ht with ht2
      rw [← ht2, hsc, hio]
    · rw [if_neg hC] at ht
      simp at ht

/-- Witness for C4: the plain unlit occupied dark room on the occupancy
trigger; the flag flips to true and an occupancy dispatch is decided. -/
theorem C4_dispatch_rule_witness :
    ((some Trigger.occupancy).isSome = true ↔
      Trigger.occupancy ∈ [Trigger.init, Trigger.scene, Trigger.natural_lighting] ∨
        room_plain.is_light_on ≠ ({ room_plain with is_light_on := true } : Room).is_light_on)
  ∧ ∀ t, some Trigger.occupancy = some t →
      t = if force_light_on env_quiet room_plain.scenes = true ∧
             Trigger.occupancy = Trigger.scene ∧ room_plain.is_light_on = false
          then Trigger.occupancy else Trigger.occupancy :=
  C4_dispatch_rule env_quiet room_plain Trigger.occupancy
    { room_plain with is_light_on := true } (some Trigger.occupancy) rfl

/-- C5: whenever some configured scene currently matches its trigger value
and carries the force-light-on flag, the evaluation sets is-light-on to
true, regardless of the occupancy and low-light flags. -/
theorem C5_force_on (env : Env) (room : Room) (trigger : Trigger) (s : Scene)
    (hs : s ∈ room.scenes) (hm : scene_matches env s = true)
    (hfo : s.scene_force_light_on = true) :
    ∀ room2 d, set_is_light_on env room trigger = .ok (room2, d) →
      room2.is_light_on = true := by
  intro room2 d h
  obtain ⟨room1, hr⟩ := set_is_light_on_err h
  have heq := (set_is_light_on_eq env room trigger room1 hr).symm.trans h
  injection heq with hp
  injection hp with h2 _
  have hsc : room1.scenes = room.scenes := (refreshed_fields hr).1
  have hforce : force_light_on env room1.scenes = true := by
    rw [hsc]
    unfold force_light_on
    rw [List.any_eq_true]
    exact ⟨s, hs, by simp [hm, hfo]⟩
  rw [← h2]
  unfold update_is_light_on
  rw [hforce]
  simp

/-- Witness for C5: an unoccupied bright room whose force-on scene is
active; the evaluation still turns the light on. -/
theorem C5_force_on_witness :
    ({ room_bad with is_light_on := true } : Room).is_light_on = true :=
  C5_force_on env_party room_bad Trigger.scene scene_bad (by decide) rfl rfl
    { room_bad with is_light_on := true } (some Trigger.occupancy) rfl

/-- C7: under the precondition srcMin < srcMax, `scale` equals the integer
truncation of the linear map onto the destination range of the value
clamped to the source range; the five concrete evaluations quoted by the
specification hold; and `scale` on the example ranges (0,10) to (100,200)
is monotone non-decreasing in the value. -/
theorem C7_scale_spec :
    (∀ (val : ℚ) (src dst : ℚ × ℚ), src.1 < src.2 →
        scale val src dst = spec_scale val src dst)
  ∧ scale (-5) (0, 10) (100, 200) = 100
  ∧ scale 15 (0, 10) (100, 200) = 200
  ∧ scale 5 (0, 10) (100, 200) = 150
  ∧ scale 0 (-20, 20) (100, 255) = 177
  ∧ scale 0 (0, 20) (2000, 5500) = 2000
  ∧ (∀ v w : ℚ, v ≤ w → scale v (0, 10) (100, 200) ≤ scale w (0, 10) (100, 200)) := by
  refine ⟨?_, ?_, ?_, ?_, ?_, ?_, ?_⟩
  · intro val src dst _
    unfold scale spec_scale
    congr 1
    ring
  · exact scale_eval _ _ _ 100 (by norm_num [min_def, max_def])
  · exact scale_eval _ _ _ 200 (by norm_num [min_def, max_def])
  · exact scale_eval _ _ _ 150 (by norm_num [min_def, max_def])
  · unfold scale
    have h : (min (max (0 : ℚ) (-20)) 20 - (-20)) / (20 - (-20)) * (255 - 100) + 100
        = 355 / 2 := by
      norm_num [min_def, max_def]
    rw [h, ratTrunc_nonneg (by norm_num)]
    norm_num
  · exact scale_eval _ _ _ 2000 (by norm_num [min_def, max_def])
  · intro v w hvw
    unfold scale
    apply ratTrunc_mono
    have h1 : min (max v (0 : ℚ)) 10 ≤ min (max w 0) 10 :=
      min_le_min (max_le_max hvw le_rfl) le_rfl
    have e : ∀ x : ℚ, (x - 0) / (10 - 0) * (200 - 100) + 100 = 10 * x + 100 := by
      intro x; ring
    rw [e, e]
    linarith

/-- Witness for C7 at concrete inputs: the refinement equation at value 3
and monotonicity between 2 and 4 on the example ranges. -/
theorem C7_scale_spec_witness :
    scale 3 (0, 10) (100, 200) = spec_scale 3 (0, 10) (100, 200) ∧
    scale 2 (0, 10) (100, 200) ≤ scale 4 (0, 10) (100, 200) :=
  ⟨C7_scale_spec.1 3 (0, 10) (100, 200) (by norm_num),
   C7_scale_spec.2.2.2.2.2.2 2 4 (by norm_num)⟩

/-- C2 (showing the divergence): the safe integer conversion maps the
literal sentinel strings to 0 and numbers to their truncation, but a
value that is neither numeric nor a sentinel is returned UNCHANGED by the
bare except branch — not as 0, as the method docstring and the
specification state. -/
theorem C2_conversion_bug :
    int (.str "unknown") = .int 0
  ∧ int (.str "unavailable") = .int 0
  ∧ int (.str "abc") = .str "abc"
  ∧ PyVal.str "abc" ≠ .int 0
  ∧ int .none = .none :=
  ⟨rfl, rfl, rfl, by decide, rfl⟩

/-- C8: on a sun-elevation change every mode is recomputed from the new
elevation, the room table is left untouched (so every occupancy,
low-light and is-light-on flag is unchanged), and exactly the rooms with
a non-empty natural-lighting binding list whose lights are currently on
are re-driven through the dispatcher with trigger kind natural_lighting
against the recomputed configuration. -/
theorem C8_sun_elevation_redrive (env : Env) (tt : TransTable) (nl : NLConfig)
    (rooms : List (String × Room)) (new : Int) :
    (callback_sun_elevation env tt nl rooms new).1
      = set_natural_lighting { nl with sun_elevation := new }
  ∧ (callback_sun_elevation env tt nl rooms new).2.1 = rooms
  ∧ ∀ name acts, (name, acts) ∈ (callback_sun_elevation env tt nl rooms new).2.2 ↔
      ∃ r, (name, r) ∈ rooms ∧ ¬r.natural_lighting.isEmpty ∧ r.is_light_on = true ∧
        acts = set_light env tt
          (some (set_natural_lighting { nl with sun_elevation := new })) r .natural_lighting := by
  refine ⟨rfl, rfl, ?_⟩
  intro name acts
  unfold callback_sun_elevation
  dsimp only
  rw [List.mem_filterMap]
  constructor
  · rintro ⟨⟨n, r⟩, hmem, hsome⟩
    dsimp only at hsome
    by_cases hc : ¬r.natural_lighting.isEmpty ∧ r.is_light_on = true
    · rw [if_pos hc] at hsome
      injection hsome with hpair
      injection hpair with hn hacts
      subst hn
      exact ⟨r, hmem, hc.1, hc.2, hacts.symm⟩
    · rw [if_neg hc] at hsome
      simp at hsome
  · rintro ⟨r, hmem, h1, h2, rfl⟩
    refine ⟨(name, r), hmem, ?_⟩
    dsimp only
    rw [if_pos ⟨h1, h2⟩]

/-- C9 (showing the divergence): with two rooms where evaluating the
first raises, the start-up pass aborts with the exception and the second
room is never evaluated, although evaluating the second room on its own
succeeds.  The per-room loop of `initialize` (lines 93-94), like the one
of `callback_sun_elevation` (lines 439-441), has no try-except around its
body, contradicting the module docstring. -/
theorem C9_exception_aborts_pass :
    init_pass env_err [("a", room_a), ("b", room_b)] = .error "TypeError"
  ∧ set_is_light_on env_err room_b .init
      = .ok ({ room_b with is_light_on := true }, some Trigger.init) :=
  ⟨rfl, rfl⟩

theorem flatMap_if_eq_filter {α β : Type} (p : α → Bool) (f : α → List β) (l : List α) :
    (l.flatMap fun s => if p s then f s else []) = (l.filter p).flatMap f := by
  induction l with
  | nil => rfl
  | cons a t ih =>
      by_cases h : p a <;>
        simp [List.flatMap_cons, List.filter_cons, h, ih]

/-- C10: room initialization stores the configured scene list verbatim
for every configuration and validity oracle; the validity check gates
only the event subscriptions (exactly the valid scenes subscribe); and a
scene failing the check (here: scene entity in the domain `light`) is
still consulted by evaluation: it forces the light on and is matched by
the dispatcher. -/
theorem C10_scenes_stored_verbatim :
    (∀ (ex : String → Bool) (cfg : List SceneConfig), (init_scenes ex cfg).1 = cfg)
  ∧ (∀ (ex : String → Bool) (cfg : List SceneConfig),
      (init_scenes ex cfg).2 = (cfg.filter (valid_scene ex)).flatMap scene_subs)
  ∧ valid_scene exists_all (SceneConfig.ofScene scene_bad) = false
  ∧ set_is_light_on env_party room_bad Trigger.scene
      = .ok ({ room_bad with is_light_on := true }, some Trigger.occupancy)
  ∧ set_light env_party default_transitions Option.none
      { room_bad with is_light_on := true } Trigger.scene
      = [Action.turn_on_scene "light.bad" (some 10)] := by
  exact ⟨fun ex cfg => rfl, fun ex cfg => flatMap_if_eq_filter _ _ _, by decide, rfl, rfl⟩

/-- C6 (amended): for a non-zero boost percentage the dispatched
brightness is int(b + b * boost / 100) clamped to [1, 255]; for boost
percentage 0 the mode brightness is passed through unchanged and
unclamped, which agrees with the clamped formula exactly when the mode
brightness already lies in [1, 255]. -/
theorem C6_boost_amended (b pct : Int) :
    (pct ≠ 0 → boost_brightness b pct = spec_boost_brightness b pct)
  ∧ boost_brightness b 0 = b
  ∧ (1 ≤ b → b ≤ 255 → boost_brightness b pct = spec_boost_brightness b pct) := by
  have harg : (b : ℚ) + (b : ℚ) / 100 * (pct : ℚ) = (b : ℚ) + (b : ℚ) * (pct : ℚ) / 100 := by
    ring
  have hmain : pct ≠ 0 → boost_brightness b pct = spec_boost_brightness b pct := by
    intro hp
    unfold boost_brightness spec_boost_brightness
    rw [if_pos hp, harg]
    dsimp only
    split_ifs <;> omega
  have hzero : boost_brightness b 0 = b := by
    unfold boost_brightness
    simp
  refine ⟨hmain, hzero, ?_⟩
  intro h1 h2
  by_cases hp : pct = 0
  · subst hp
    rw [hzero]
    unfold spec_boost_brightness
    rw [show (b : ℚ) + (b : ℚ) * ((0 : Int) : ℚ) / 100 = (b : ℚ) by push_cast; ring,
        ratTrunc_intCast]
    omega
  · exact hmain hp

/-- Witness for C6 (amended) at the concrete inputs of the specification:
brightness 250 with boost 50 (the clamped case) and boost 0. -/
theorem C6_boost_amended_witness :
    boost_brightness 250 50 = spec_boost_brightness 250 50 ∧
    boost_brightness 250 0 = 250 :=
  ⟨(C6_boost_amended 250 50).1 (by decide), (C6_boost_amended 250 0).2.1⟩

/-- C6 (counterexample to the claim as stated): a mode brightness of 400
is attainable as the recomputed brightness at sun elevation 20 with
configured range (100, 400); a binding with boost percentage 0 dispatches
brightness 400 unclamped, while the claimed formula
int(b + b * 0 / 100) clamped to [1, 255] gives 255. -/
theorem C6_boost_counterexample :
    scale 20 (-20, 20) (100, 400) = 400
  ∧ set_light env_quiet default_transitions (some nl400) room400 .natural_lighting
      = [Action.turn_on_natural "light.x" 400 5500 (some 10)]
  ∧ spec_boost_brightness 400 0 = 255
  ∧ (400 : Int) ≠ 255 := by
  refine ⟨scale_eval _ _ _ 400 (by norm_num [min_def, max_def]), ?_, ?_, by decide⟩
  · decide
  · unfold spec_boost_brightness
    rw [show ((400 : Int) : ℚ) + ((400 : Int) : ℚ) * ((0 : Int) : ℚ) / 100
          = ((400 : Int) : ℚ) by push_cast; ring,
        ratTrunc_intCast]
    decide

end FAL
